import Mathlib

/-!
# adapter.js: a supervisor for one wrapped subprocess

A shallow embedding of `src/adapter.js`.  The script resolves three settings
from the environment, spawns one child process, and, in web mode, serves a
two-route HTTP surface.  Callbacks of the script become functions from the
captured variables to the list of effects they perform; the Node event loop
becomes a step function over the events the script listens to.
-/

namespace Adapter

/-! ## JavaScript values -/

/-- JavaScript values held by the variables of the script. -/
inductive JsVal where
  | undefined
  | null
  | num (n : Int)
  | str (s : String)
  deriving DecidableEq, Repr

namespace JsVal

/-- The comparison `v == null`: it holds of null and of undefined, of nothing else. -/
def looseEqNull : JsVal → Bool
  | undefined => true
  | null => true
  | num _ => false
  | str _ => false

/-- The operator `v ?? d`: the right operand replaces null and undefined only. -/
def coalesce (v d : JsVal) : JsVal :=
  match v with
  | undefined => d
  | null => d
  | num n => num n
  | str s => str s

/-- Text that `${v}` contributes to a template literal.  Integers print in
decimal, which is what JavaScript does below 1e21 in magnitude. -/
def toTemplate : JsVal → String
  | undefined => "undefined"
  | null => "null"
  | num n => toString n
  | str s => s

end JsVal

/-- Values as they appear in a serialised JSON body.  `quot n d` is the number
`n / d`, which JavaScript computes in floating point; it is kept unevaluated. -/
inductive JsonVal where
  | null
  | num (n : Int)
  | str (s : String)
  | quot (n : Int) (d : Int)
  deriving DecidableEq, Repr

/-- How `JSON.stringify` treats the value of an object property: a property
holding undefined is left out, every other value is written. -/
def JsVal.toJson : JsVal → Option JsonVal
  | .undefined => none
  | .null => some .null
  | .num n => some (.num n)
  | .str s => some (.str s)

/-- `JSON.stringify` of an object literal, kept as the list of properties written. -/
def jsonStringify (props : List (String × Option JsonVal)) : List (String × JsonVal) :=
  props.filterMap fun p => p.2.map fun v => (p.1, v)

/-- Reading property `key` back from a serialised object: a missing key reads
as undefined (`none`). -/
def jsonGet (key : String) (props : List (String × JsonVal)) : Option JsonVal :=
  (props.find? fun p => p.1 == key).map Prod.snd

/-! ## Configuration (lines 16-18) -/

/-- The three environment variables the script reads; `none` is an unset variable. -/
structure Env where
  RUN_MODE : Option String
  PORT : Option String
  DEV_MCP_VERSION : Option String
  deriving DecidableEq, Repr

/-- The expression `process.env.X || d`: an unset variable and the empty string
are both falsy, so both yield the default. -/
def envOr (v : Option String) (d : String) : String :=
  match v with
  | none => d
  | some s => if s = "" then d else s

/-- White space that `parseInt` skips in front of the number. -/
def isStrWhiteSpace (c : Char) : Bool :=
  c.val = 0x09 || c.val = 0x0A || c.val = 0x0B || c.val = 0x0C || c.val = 0x0D ||
  c.val = 0x20 || c.val = 0xA0 || c.val = 0x1680 ||
  (0x2000 ≤ c.val && c.val ≤ 0x200A) ||
  c.val = 0x2028 || c.val = 0x2029 || c.val = 0x202F || c.val = 0x205F ||
  c.val = 0x3000 || c.val = 0xFEFF

/-- Value of a run of decimal digits read left to right. -/
def digitsValue (ds : List Char) : Nat :=
  ds.foldl (fun acc c => 10 * acc + (c.toNat - '0'.toNat)) 0

/-- `parseInt(s, 10)`: skip white space, read a sign, read the longest run of
decimal digits; `none` is NaN (no digit found).  The magnitude is kept exact,
where JavaScript rounds to a double above 2^53. -/
def parseInt10 (s : String) : Option Int :=
  let cs := s.toList.dropWhile isStrWhiteSpace
  let (neg, rest) :=
    match cs with
    | '-' :: t => (true, t)
    | '+' :: t => (false, t)
    | _ => (false, cs)
  let ds := rest.takeWhile Char.isDigit
  if ds.isEmpty then none
  else if neg then some (-(digitsValue ds : Int)) else some (digitsValue ds : Int)

/-- Line 16: `const RUN_MODE = process.env.RUN_MODE || 'stdio'`. -/
def RUN_MODE (env : Env) : String := envOr env.RUN_MODE "stdio"

/-- Line 17: `const PORT = parseInt(process.env.PORT || '8080', 10)`. -/
def PORT (env : Env) : Option Int := parseInt10 (envOr env.PORT "8080")

/-- Line 18: `const DEV_MCP_VERSION = process.env.DEV_MCP_VERSION || 'latest'`. -/
def DEV_MCP_VERSION (env : Env) : String := envOr env.DEV_MCP_VERSION "latest"

/-- The module-level constants, once resolved. -/
structure Config where
  runMode : String
  port : Option Int
  mcpVersion : String
  deriving DecidableEq, Repr

/-- Resolution of the module-level constants from the environment. -/
def Config.resolve (env : Env) : Config :=
  { runMode := RUN_MODE env, port := PORT env, mcpVersion := DEV_MCP_VERSION env }

/-! ## Effects -/

/-- The `stdio` option handed to `spawn`. -/
inductive StdioOption where
  | inherit
  | ignorePipePipe
  deriving DecidableEq, Repr

/-- An HTTP response body. -/
inductive Body where
  | json (props : List (String × JsonVal))
  | text (s : String)
  deriving DecidableEq, Repr

/-- What the request handler writes: `res.writeHead` then `res.end`. -/
structure Response where
  statusCode : Nat
  headers : List (String × String)
  body : Body
  deriving DecidableEq, Repr

/-- The observable actions of the script, in the order they are performed. -/
inductive Effect where
  | spawn (cmd : String) (args : List String) (stdio : StdioOption)
  | consoleError (msg : String)
  | stderrWrite (text : String)
  | processExit (code : JsVal)
  | setTimeout (ms : Nat)
  | listen (port : Option Int)
  | respond (r : Response)
  | childKill (sig : String)
  | serverClose
  deriving DecidableEq, Repr

/-- The argument of the first `process.exit` in a trace, if there is one. -/
def exitCodeOf : List Effect → Option JsVal
  | [] => none
  | .processExit c :: _ => some c
  | _ :: rest => exitCodeOf rest

/-- Whether a trace spawns a subprocess. -/
def spawns : List Effect → Bool
  | [] => false
  | .spawn _ _ _ :: _ => true
  | _ :: rest => spawns rest

/-! ## The child process (lines 20-42) -/

/-- The fields of Node's `ChildProcess` object that the script reads, with
`signalCode` beside them: Node records an exit with a code in `exitCode` and a
death by signal in `signalCode`, leaving the other one null. -/
structure ChildProcess where
  pid : JsVal
  exitCode : JsVal
  signalCode : JsVal
  deriving DecidableEq, Repr

/-- The child has terminated, by either route. -/
def ChildProcess.hasExited (c : ChildProcess) : Bool :=
  !c.exitCode.looseEqNull || !c.signalCode.looseEqNull

/-- Lines 21-24: the `spawn` call.  The process id is supplied by the system. -/
def spawnEffect (cfg : Config) : Effect :=
  .spawn "npx" ["-y", "@shopify/dev-mcp@" ++ cfg.mcpVersion]
    (if cfg.runMode = "stdio" then .inherit else .ignorePipePipe)

/-- Lines 20-42, `launchMcp`: spawn the child and hand back the fresh object.
A spawn that fails (an `error` event, which the script does not listen to) is
not modelled. -/
def launchMcp (cfg : Config) (pid : JsVal) : ChildProcess × List Effect :=
  ({ pid := pid, exitCode := .null, signalCode := .null }, [spawnEffect cfg])

/-- Lines 26-34: the listener for the child's `exit` event. -/
def onChildExit (runMode : String) (code signal : JsVal) : List Effect :=
  .consoleError ("[adapter] MCP process exited code=" ++ code.toTemplate ++
      " signal=" ++ signal.toTemplate) ::
    (if runMode = "stdio" then [.processExit (code.coalesce (.num 1))]
     else [.processExit (code.coalesce (.num 1))])

/-- The two piped output streams of the child. -/
inductive ChildStream where
  | stdout
  | stderr
  deriving DecidableEq, Repr

/-- The tag written in front of a chunk (lines 37 and 38). -/
def ChildStream.tag : ChildStream → String
  | .stdout => "[mcp-out] "
  | .stderr => "[mcp-err] "

/-- Lines 36-39: the listeners for `data` on the child's output streams, present
in web mode only.  The chunk `d` is taken already decoded to text. -/
def onChildData (runMode : String) (src : ChildStream) (d : String) : List Effect :=
  if runMode = "web" then [.stderrWrite (src.tag ++ d)] else []

/-- Everything written to the diagnostic stream for a sequence of chunks. -/
def forwardChunks (runMode : String) (src : ChildStream) : List String → List Effect
  | [] => []
  | d :: rest => onChildData runMode src d ++ forwardChunks runMode src rest

/-- The text a trace writes with `process.stderr.write`, concatenated in order. -/
def stderrText : List Effect → String
  | [] => ""
  | .stderrWrite t :: rest => t ++ stderrText rest
  | _ :: rest => stderrText rest

/-- Lines of a text: the pieces ended by a line feed, then a last unterminated
piece when it is not empty. -/
def linesAux : List Char → List Char → List (List Char)
  | cur, [] => if cur.isEmpty then [] else [cur.reverse]
  | cur, c :: t => if c = '\n' then cur.reverse :: linesAux [] t else linesAux (c :: cur) t

/-- Lines of a text, as lists of characters. -/
def linesOf (s : String) : List (List Char) := linesAux [] s.toList

/-! ## Web mode (lines 46-84) -/

/-- The delay handed to `setTimeout` on line 52, in milliseconds. -/
def gracePeriodMs : Nat := 1500

/-- The variables the web-mode callbacks close over, with the clock they read,
the two pending callbacks (grace timer, close of the listener) and the exit
code of the supervisor once `process.exit` has run. -/
structure WebState where
  cfg : Config
  child : ChildProcess
  healthy : Bool
  startedAt : Int
  now : Int
  timerPending : Bool
  closing : Bool
  exited : Option JsVal
  deriving DecidableEq, Repr

/-- Line 56: `healthy && child.exitCode == null ? 'ok' : 'starting'`. -/
def healthStatus (healthy : Bool) (exitCode : JsVal) : String :=
  if healthy && exitCode.looseEqNull then "ok" else "starting"

/-- Lines 54-74: the request listener, as the response it writes. -/
def requestHandler (s : WebState) (url : String) : Response :=
  if url = "/health" then
    let status := healthStatus s.healthy s.child.exitCode
    { statusCode := if status = "ok" then 200 else 503
      headers := [("Content-Type", "application/json")]
      body := .json (jsonStringify
        [("status", some (.str status)),
         ("uptimeSeconds", some (.quot (s.now - s.startedAt) 1000))]) }
  else if url = "/status" then
    { statusCode := 200
      headers := [("Content-Type", "application/json")]
      body := .json (jsonStringify
        [("mode", some (.str s.cfg.runMode)),
         ("mcpVersion", some (.str s.cfg.mcpVersion)),
         ("pid", s.child.pid.toJson),
         ("exitCode", s.child.exitCode.toJson),
         ("startedAt", some (.num s.startedAt))]) }
  else
    { statusCode := 404, headers := [], body := .text "Not Found" }

/-- The `status` property of a JSON body, when it has one. -/
def Response.status (r : Response) : Option JsonVal :=
  match r.body with
  | .json props => jsonGet "status" props
  | .text _ => none

/-- A property of a JSON body; `none` when the body is text or lacks the key. -/
def Response.prop (r : Response) (key : String) : Option JsonVal :=
  match r.body with
  | .json props => jsonGet key props
  | .text _ => none

/-- Text of `${PORT}`: a number in decimal, or NaN. -/
def portText : Option Int → String
  | some n => toString n
  | none => "NaN"

/-- Lines 80-84: the listener for SIGTERM, up to the call of `server.close`. -/
def onSigterm : List Effect :=
  [.consoleError "[adapter] SIGTERM received, shutting down",
   .childKill "SIGTERM",
   .serverClose]

/-- Line 83: the callback handed to `server.close`. -/
def onServerClosed : List Effect := [.processExit (.num 0)]

/-- What the top-level code leaves behind. -/
inductive Booted where
  | stdio (child : ChildProcess)
  | web (s : WebState)
  | failed
  deriving DecidableEq, Repr

/-- The web-mode state right after the top-level code has run: the child is
fresh, `healthy` is false (line 48), the grace timer is scheduled (line 52). -/
def initWeb (cfg : Config) (pid : JsVal) (now : Int) : WebState :=
  { cfg := cfg, child := (launchMcp cfg pid).1, healthy := false, startedAt := now,
    now := now, timerPending := true, closing := false, exited := none }

/-- Lines 44-88: the top-level branch on the run mode.  `pid` is the process id
the system gives the child, `now` the value of `Date.now()` on line 49.  A port
that `server.listen` refuses with an exception is not modelled. -/
def main (env : Env) (pid : JsVal) (now : Int) : Booted × List Effect :=
  let cfg := Config.resolve env
  if cfg.runMode = "stdio" then
    (.stdio (launchMcp cfg pid).1, (launchMcp cfg pid).2)
  else if cfg.runMode = "web" then
    (.web (initWeb cfg pid now),
     (launchMcp cfg pid).2 ++ [.setTimeout gracePeriodMs, .listen cfg.port])
  else
    (.failed, [.consoleError ("[adapter] Unknown RUN_MODE=" ++ cfg.runMode),
               .processExit (.num 1)])

/-- The events delivered to the web-mode callbacks by the event loop. -/
inductive Event where
  | advance (ms : Nat)
  | timerFire
  | listening
  | request (url : String)
  | childData (src : ChildStream) (d : String)
  | childExit (code signal : JsVal)
  | signal (sig : String)
  | serverClosed
  deriving DecidableEq, Repr

/-- One turn of the event loop in web mode.  Nothing runs once `process.exit`
has been called.  The grace timer runs once, and not before its delay has
passed; the close callback runs only after `server.close` was called.  On the
exit of the child the runtime records code and signal in the child object and
then calls the exit listener.  A signal reaches the listener of line 80 when
its name is SIGTERM; for any other name the script has no listener and does
nothing (where the default action of that signal ends the process the run stops
there; the model does not force it, which only adds states). -/
def step (s : WebState) (e : Event) : WebState × List Effect :=
  if s.exited.isSome then (s, [])
  else
    match e with
    | .advance ms => ({ s with now := s.now + ms }, [])
    | .timerFire =>
      if s.timerPending && decide (s.startedAt + gracePeriodMs ≤ s.now) then
        ({ s with healthy := true, timerPending := false }, [])
      else (s, [])
    | .listening =>
      (s, [.consoleError ("[adapter] Web mode listening on :" ++ portText s.cfg.port)])
    | .request url => (s, [.respond (requestHandler s url)])
    | .childData src d => (s, onChildData s.cfg.runMode src d)
    | .childExit code signal =>
      let fx := onChildExit s.cfg.runMode code signal
      ({ s with child := { s.child with exitCode := code, signalCode := signal },
                exited := exitCodeOf fx }, fx)
    | .signal sig =>
      if sig = "SIGTERM" then ({ s with closing := true }, onSigterm) else (s, [])
    | .serverClosed =>
      if s.closing then ({ s with exited := exitCodeOf onServerClosed }, onServerClosed)
      else (s, [])

/-- The state after a sequence of events. -/
def run (s : WebState) : List Event → WebState
  | [] => s
  | e :: es => run (step s e).1 es

/-- The effects of a sequence of events, in order. -/
def trace (s : WebState) : List Event → List Effect
  | [] => []
  | e :: es => (step s e).2 ++ trace (step s e).1 es

/-! ## The request handler -/

/-- The handler's answer to `/health`, spelled out. -/
theorem requestHandler_health (s : WebState) :
    requestHandler s "/health" =
      { statusCode := if healthStatus s.healthy s.child.exitCode = "ok" then 200 else 503
        headers := [("Content-Type", "application/json")]
        body := .json [("status", .str (healthStatus s.healthy s.child.exitCode)),
                       ("uptimeSeconds", .quot (s.now - s.startedAt) 1000)] } := by
  simp [requestHandler, jsonStringify]

/-- The status word is one of two strings, chosen by the test of line 56. -/
theorem healthStatus_cases (h : Bool) (c : JsVal) :
    (h = true ∧ (c = .null ∨ c = .undefined) ∧ healthStatus h c = "ok") ∨
    (¬(h = true ∧ (c = .null ∨ c = .undefined)) ∧ healthStatus h c = "starting") := by
  cases h <;> cases c <;> simp [healthStatus, JsVal.looseEqNull]

/-- C1: for every readiness flag and every child exit code, `/health` answers
with status "ok" exactly when `healthy` is true and the exit code is absent
(null or undefined), with status "starting" otherwise, and the HTTP status code
is 200 exactly when the status is "ok" and 503 in every other case. -/
theorem health_ok_iff (s : WebState) :
    ((requestHandler s "/health").status = some (.str "ok") ↔
        (s.healthy = true ∧ (s.child.exitCode = .null ∨ s.child.exitCode = .undefined))) ∧
    ((requestHandler s "/health").status = some (.str "starting") ↔
        ¬(s.healthy = true ∧ (s.child.exitCode = .null ∨ s.child.exitCode = .undefined))) ∧
    ((requestHandler s "/health").statusCode = 200 ↔
        (requestHandler s "/health").status = some (.str "ok")) ∧
    ((requestHandler s "/health").statusCode = 503 ↔
        (requestHandler s "/health").status ≠ some (.str "ok")) := by
  rw [requestHandler_health]
  rcases healthStatus_cases s.healthy s.child.exitCode with ⟨h1, h2, h3⟩ | ⟨h1, h3⟩
  · simp only [h3]
    simp [Response.status, jsonGet, h1, h2]
  · simp only [h3]
    simp [Response.status, jsonGet, h1]

/-- C1 at a state past the grace period with a running child: 200 and "ok". -/
theorem health_ok_iff_witness :
    (requestHandler
        { cfg := ⟨"web", some 8080, "latest"⟩, child := ⟨.num 41, .null, .null⟩,
          healthy := true, startedAt := 0, now := 2000, timerPending := false,
          closing := false, exited := none } "/health").statusCode = 200 :=
  (health_ok_iff _).2.2.1.mpr ((health_ok_iff _).1.mpr ⟨rfl, Or.inl rfl⟩)

/-- The handler's answer to `/status`, before serialisation of the two child fields. -/
theorem requestHandler_status (s : WebState) :
    requestHandler s "/status" =
      { statusCode := 200
        headers := [("Content-Type", "application/json")]
        body := .json (jsonStringify
          [("mode", some (.str s.cfg.runMode)),
           ("mcpVersion", some (.str s.cfg.mcpVersion)),
           ("pid", s.child.pid.toJson),
           ("exitCode", s.child.exitCode.toJson),
           ("startedAt", some (.num s.startedAt))]) } := by
  simp [requestHandler]

/-- The handler's answer to every other URL. -/
theorem requestHandler_other (s : WebState) (url : String)
    (h1 : url ≠ "/health") (h2 : url ≠ "/status") :
    requestHandler s url = { statusCode := 404, headers := [], body := .text "Not Found" } := by
  simp [requestHandler, h1, h2]

/-- C5: every request URL other than `/health` and `/status` gets 404 with body
`Not Found`, whatever the state; `/health` and `/status` never get 404. -/
theorem notFound_iff (s : WebState) (url : String) :
    ((url ≠ "/health" ∧ url ≠ "/status") →
        requestHandler s url =
          { statusCode := 404, headers := [], body := .text "Not Found" }) ∧
    ((requestHandler s url).statusCode = 404 ↔ (url ≠ "/health" ∧ url ≠ "/status")) := by
  refine ⟨fun h => requestHandler_other s url h.1 h.2, ?_⟩
  by_cases h1 : url = "/health"
  · subst h1
    rw [requestHandler_health]
    by_cases h : healthStatus s.healthy s.child.exitCode = "ok" <;> simp [h]
  · by_cases h2 : url = "/status"
    · subst h2
      rw [requestHandler_status]
      simp
    · rw [requestHandler_other s url h1 h2]
      simp [h1, h2]

/-- C5 at the URL `/health?full=1`, which the handler compares whole. -/
theorem notFound_iff_witness :
    requestHandler (initWeb ⟨"web", some 8080, "latest"⟩ (.num 41) 0) "/health?full=1" =
      { statusCode := 404, headers := [], body := .text "Not Found" } :=
  (notFound_iff _ _).1 ⟨by decide, by decide⟩

/-! ## What no event changes -/

/-- No event changes the configuration, the process id of the child or the
start timestamp. -/
theorem step_frame (s : WebState) (e : Event) :
    (step s e).1.cfg = s.cfg ∧ (step s e).1.child.pid = s.child.pid ∧
    (step s e).1.startedAt = s.startedAt := by
  unfold step
  split
  · simp
  · cases e <;> simp <;> split <;> simp

/-- The frame of `step`, along a sequence of events. -/
theorem run_frame (evs : List Event) (s : WebState) :
    (run s evs).cfg = s.cfg ∧ (run s evs).child.pid = s.child.pid ∧
    (run s evs).startedAt = s.startedAt := by
  induction evs generalizing s with
  | nil => simp [run]
  | cons e es ih =>
    obtain ⟨h1, h2, h3⟩ := step_frame s e
    obtain ⟨k1, k2, k3⟩ := ih (step s e).1
    exact ⟨by rw [run, k1, h1], by rw [run, k2, h2], by rw [run, k3, h3]⟩

/-- While the supervisor runs, the exit code of the child is null: the exit
listener ends the supervisor in the turn that records the code. -/
theorem run_exitCode_null (evs : List Event) (s : WebState)
    (h : s.exited = none → s.child.exitCode = .null) :
    (run s evs).exited = none → (run s evs).child.exitCode = .null := by
  induction evs generalizing s with
  | nil => exact h
  | cons e es ih =>
    apply ih
    unfold step
    split
    · exact h
    · rename_i hx
      have hx2 : s.exited = none := by simpa using hx
      cases e <;> simp only <;>
        first
        | exact fun _ => h hx2
        | (split <;> exact fun _ => h hx2)
        | (intro hh; simp [onChildExit, exitCodeOf] at hh)

/-- Reading the properties of the `/status` body. -/
theorem status_props (s : WebState) :
    (requestHandler s "/status").prop "mode" = some (.str s.cfg.runMode) ∧
    (requestHandler s "/status").prop "mcpVersion" = some (.str s.cfg.mcpVersion) ∧
    (requestHandler s "/status").prop "pid" = s.child.pid.toJson ∧
    (requestHandler s "/status").prop "exitCode" = s.child.exitCode.toJson ∧
    (requestHandler s "/status").prop "startedAt" = some (.num s.startedAt) := by
  rw [requestHandler_status]
  cases hp : s.child.pid <;> cases hx : s.child.exitCode <;>
    simp [Response.prop, jsonGet, jsonStringify, JsVal.toJson, List.find?]

/-- C6: started in web mode from any environment, after any sequence of events,
`/status` returns 200 with a body whose `pid` is the process id of the spawned
child, whose `exitCode` is the current exit code of the child (null while it
runs), and whose `mode`, `mcpVersion` and `startedAt` are the resolved
configuration and the start timestamp; handling the request emits the response
alone and leaves the state as it was. -/
theorem status_snapshot (env : Env) (pid : JsVal) (now : Int) (evs : List Event)
    (s : WebState) (hweb : (main env pid now).1 = .web s) :
    (requestHandler (run s evs) "/status").statusCode = 200 ∧
    (requestHandler (run s evs) "/status").prop "pid" = pid.toJson ∧
    (requestHandler (run s evs) "/status").prop "exitCode" =
      (run s evs).child.exitCode.toJson ∧
    (requestHandler (run s evs) "/status").prop "mode" = some (.str (RUN_MODE env)) ∧
    (requestHandler (run s evs) "/status").prop "mcpVersion" =
      some (.str (DEV_MCP_VERSION env)) ∧
    (requestHandler (run s evs) "/status").prop "startedAt" = some (.num now) ∧
    ((run s evs).exited = none →
      (requestHandler (run s evs) "/status").prop "exitCode" = some .null ∧
      step (run s evs) (.request "/status") =
        (run s evs, [.respond (requestHandler (run s evs) "/status")])) := by
  have hs : s = initWeb (Config.resolve env) pid now := by
    unfold main at hweb
    simp only at hweb
    split at hweb
    · simp at hweb
    · split at hweb
      · simpa using hweb.symm
      · simp at hweb
  obtain ⟨f1, f2, f3⟩ := run_frame evs s
  obtain ⟨p1, p2, p3, p4, p5⟩ := status_props (run s evs)
  refine ⟨by rw [requestHandler_status], ?_, p4, ?_, ?_, ?_, ?_⟩
  · rw [p3, f2, hs]; rfl
  · rw [p1, f1, hs]; rfl
  · rw [p2, f1, hs]; rfl
  · rw [p5, f3, hs]; rfl
  · intro h
    refine ⟨?_, by simp [step, h]⟩
    rw [p4, run_exitCode_null evs s (by intro _; rw [hs]; rfl) h]
    rfl

/-- C6 for `RUN_MODE=web` with the other variables unset, after the grace timer. -/
theorem status_snapshot_witness :
    (requestHandler
        (run (initWeb ⟨"web", some 8080, "latest"⟩ (.num 41) 7) [.advance 1500, .timerFire])
        "/status").prop "pid" = some (.num 41) :=
  (status_snapshot ⟨some "web", none, none⟩ (.num 41) 7 [.advance 1500, .timerFire]
    (initWeb ⟨"web", some 8080, "latest"⟩ (.num 41) 7) (by decide)).2.1

/-! ## Start-up and the exit of the child -/

/-- C2, as stated, fails: the empty string is a value of RUN_MODE outside
"stdio" and "web", yet the script falls back to stdio mode, spawns the child and
does not exit. -/
theorem empty_run_mode_spawns :
    ("" : String) ≠ "stdio" ∧ ("" : String) ≠ "web" ∧
    spawns (main ⟨some "", none, none⟩ (.num 41) 0).2 = true ∧
    exitCodeOf (main ⟨some "", none, none⟩ (.num 41) 0).2 = none ∧
    (main ⟨some "", none, none⟩ (.num 41) 0).1 = .stdio ⟨.num 41, .null, .null⟩ := by
  decide

/-- C2, amended: for every non-empty value of RUN_MODE outside "stdio" and
"web", the script logs the unknown mode and exits with code 1, and its trace
holds no spawn; an empty RUN_MODE and an unset RUN_MODE both fall back to
"stdio": the script then does what it does for `RUN_MODE=stdio`, it spawns the
child with inherited streams and does not exit. -/
theorem unknown_run_mode_exits (v : String) (port ver : Option String) (pid : JsVal)
    (now : Int) :
    (v ≠ "" → v ≠ "stdio" → v ≠ "web" →
      main ⟨some v, port, ver⟩ pid now =
        (.failed, [.consoleError ("[adapter] Unknown RUN_MODE=" ++ v),
                   .processExit (.num 1)]) ∧
      exitCodeOf (main ⟨some v, port, ver⟩ pid now).2 = some (.num 1) ∧
      spawns (main ⟨some v, port, ver⟩ pid now).2 = false) ∧
    RUN_MODE ⟨some "", port, ver⟩ = "stdio" ∧
    RUN_MODE ⟨none, port, ver⟩ = "stdio" ∧
    main ⟨some "", port, ver⟩ pid now = main ⟨some "stdio", port, ver⟩ pid now ∧
    main ⟨none, port, ver⟩ pid now = main ⟨some "stdio", port, ver⟩ pid now ∧
    main ⟨some "stdio", port, ver⟩ pid now =
      (.stdio ⟨pid, .null, .null⟩,
       [.spawn "npx" ["-y", "@shopify/dev-mcp@" ++ DEV_MCP_VERSION ⟨some "stdio", port, ver⟩]
          .inherit]) ∧
    spawns (main ⟨some "", port, ver⟩ pid now).2 = true ∧
    spawns (main ⟨none, port, ver⟩ pid now).2 = true ∧
    exitCodeOf (main ⟨some "", port, ver⟩ pid now).2 = none ∧
    exitCodeOf (main ⟨none, port, ver⟩ pid now).2 = none := by
  have hstd : main ⟨some "stdio", port, ver⟩ pid now =
      (.stdio ⟨pid, .null, .null⟩,
       [.spawn "npx" ["-y", "@shopify/dev-mcp@" ++ DEV_MCP_VERSION ⟨some "stdio", port, ver⟩]
          .inherit]) := by
    simp [main, Config.resolve, RUN_MODE, DEV_MCP_VERSION, envOr, launchMcp, spawnEffect]
  have hempty : main ⟨some "", port, ver⟩ pid now = main ⟨some "stdio", port, ver⟩ pid now := by
    simp [main, Config.resolve, RUN_MODE, PORT, DEV_MCP_VERSION, envOr]
  have hunset : main ⟨none, port, ver⟩ pid now = main ⟨some "stdio", port, ver⟩ pid now := by
    simp [main, Config.resolve, RUN_MODE, PORT, DEV_MCP_VERSION, envOr]
  refine ⟨?_, by simp [RUN_MODE, envOr], by simp [RUN_MODE, envOr], hempty, hunset, hstd,
    ?_, ?_, ?_, ?_⟩
  · intro h0 h1 h2
    have hm : main ⟨some v, port, ver⟩ pid now =
        (.failed, [.consoleError ("[adapter] Unknown RUN_MODE=" ++ v),
                   .processExit (.num 1)]) := by
      simp [main, Config.resolve, RUN_MODE, envOr, h0, h1, h2]
    rw [hm]
    exact ⟨rfl, rfl, rfl⟩
  · rw [hempty, hstd]; rfl
  · rw [hunset, hstd]; rfl
  · rw [hempty, hstd]; rfl
  · rw [hunset, hstd]; rfl

/-- C2 amended, at `RUN_MODE=http`. -/
theorem unknown_run_mode_exits_witness :
    exitCodeOf (main ⟨some "http", none, none⟩ (.num 41) 0).2 = some (.num 1) ∧
    spawns (main ⟨some "http", none, none⟩ (.num 41) 0).2 = false :=
  ((unknown_run_mode_exits "http" none none (.num 41) 0).1
    (by decide) (by decide) (by decide)).2

/-- C3: for every exit event of the child, in any run mode, the exit listener
ends the supervisor with the code of the child when there is one (0 included)
and with 1 when the code is null or undefined; the effects are the same in
every run mode, and in web mode the event loop records that exit code. -/
theorem child_exit_code (runMode : String) (signal : JsVal) :
    (∀ n : Int, exitCodeOf (onChildExit runMode (.num n) signal) = some (.num n)) ∧
    exitCodeOf (onChildExit runMode .null signal) = some (.num 1) ∧
    exitCodeOf (onChildExit runMode .undefined signal) = some (.num 1) ∧
    (∀ (mode2 : String) (code : JsVal),
        onChildExit runMode code signal = onChildExit mode2 code signal) ∧
    (∀ (s : WebState) (n : Int), s.exited = none →
        (step s (.childExit (.num n) signal)).1.exited = some (.num n)) ∧
    (∀ (s : WebState), s.exited = none →
        (step s (.childExit .null signal)).1.exited = some (.num 1)) := by
  have key : ∀ (m : String) (code : JsVal),
      onChildExit m code signal =
        [.consoleError ("[adapter] MCP process exited code=" ++ code.toTemplate ++
            " signal=" ++ signal.toTemplate),
         .processExit (code.coalesce (.num 1))] := by
    intro m code
    unfold onChildExit
    split <;> rfl
  refine ⟨?_, ?_, ?_, ?_, ?_, ?_⟩
  · intro n; rw [key]; rfl
  · rw [key]; rfl
  · rw [key]; rfl
  · intro m2 code; rw [key, key]
  · intro s n h; simp [step, h, key, exitCodeOf, JsVal.coalesce]
  · intro s h; simp [step, h, key, exitCodeOf, JsVal.coalesce]

/-- C3 at a running web-mode supervisor whose child exits with code 3. -/
theorem child_exit_code_witness :
    (step (initWeb ⟨"web", some 8080, "latest"⟩ (.num 41) 0)
      (.childExit (.num 3) .null)).1.exited = some (.num 3) :=
  (child_exit_code "web" .null).2.2.2.2.1 _ 3 rfl

/-! ## The readiness flag -/

/-- Every event other than the grace timer leaves `healthy` as it was. -/
theorem step_healthy_of_ne (s : WebState) (e : Event) (h : e ≠ .timerFire) :
    (step s e).1.healthy = s.healthy := by
  unfold step
  split
  · rfl
  · cases e <;> first | exact absurd rfl h | rfl | (simp only; split <;> rfl)

/-- No event clears `healthy`. -/
theorem step_healthy_mono (s : WebState) (e : Event) (h : s.healthy = true) :
    (step s e).1.healthy = true := by
  by_cases he : e = .timerFire
  · subst he
    unfold step
    split
    · exact h
    · simp only
      split
      · rfl
      · exact h
  · rw [step_healthy_of_ne s e he, h]

/-- No sequence of events clears `healthy`. -/
theorem run_healthy_mono (evs : List Event) (s : WebState) (h : s.healthy = true) :
    (run s evs).healthy = true := by
  induction evs generalizing s with
  | nil => exact h
  | cons e es ih => exact ih _ (step_healthy_mono s e h)

/-- C7: in the web-mode step function the flag `healthy` starts false, is
written by the grace-timer event alone (every other event leaves it as it was),
and once true it is true after every further sequence of events. -/
theorem healthy_write_once :
    (∀ (cfg : Config) (pid : JsVal) (now : Int), (initWeb cfg pid now).healthy = false) ∧
    (∀ (s : WebState) (e : Event), e ≠ .timerFire → (step s e).1.healthy = s.healthy) ∧
    (∀ (s : WebState) (evs : List Event), s.healthy = true → (run s evs).healthy = true) :=
  ⟨fun _ _ _ => rfl, step_healthy_of_ne, fun s evs h => run_healthy_mono evs s h⟩

/-- C7 on a run in which requests, a signal and the exit of the child follow
the grace timer. -/
theorem healthy_write_once_witness :
    (run (initWeb ⟨"web", some 8080, "latest"⟩ (.num 41) 0)
        [.advance 1500, .timerFire]).healthy = true ∧
    (run (run (initWeb ⟨"web", some 8080, "latest"⟩ (.num 41) 0) [.advance 1500, .timerFire])
        [.request "/health", .signal "SIGTERM", .childExit .null (.str "SIGTERM"),
         .request "/status"]).healthy = true :=
  ⟨by decide, healthy_write_once.2.2 _ _ (by decide)⟩

/-- Every event keeps the grace invariant: a true flag means the timer has run
and the clock is past the delay. -/
theorem step_graceInv (s : WebState) (e : Event)
    (h : s.healthy = true → s.timerPending = false ∧ s.startedAt + gracePeriodMs ≤ s.now) :
    (step s e).1.healthy = true →
      (step s e).1.timerPending = false ∧
      (step s e).1.startedAt + gracePeriodMs ≤ (step s e).1.now := by
  unfold step
  split
  · exact h
  · cases e with
    | advance ms =>
      simp only
      intro hh
      obtain ⟨a, b⟩ := h hh
      exact ⟨a, by omega⟩
    | timerFire =>
      simp only
      split
      · rename_i hg
        simp only [Bool.and_eq_true, decide_eq_true_eq] at hg
        intro _
        exact ⟨rfl, hg.2⟩
      · exact h
    | serverClosed =>
      simp only
      split
      · exact h
      · exact h
    | listening => exact h
    | request url => exact h
    | childData src d => exact h
    | childExit code signal => exact h
    | signal sig =>
      simp only
      split
      · exact h
      · exact h

/-- Every sequence of events keeps the grace invariant. -/
theorem run_graceInv (evs : List Event) (s : WebState)
    (h : s.healthy = true → s.timerPending = false ∧ s.startedAt + gracePeriodMs ≤ s.now) :
    (run s evs).healthy = true →
      (run s evs).timerPending = false ∧
      (run s evs).startedAt + gracePeriodMs ≤ (run s evs).now := by
  induction evs generalizing s with
  | nil => exact h
  | cons e es ih => exact ih _ (step_graceInv s e h)

/-- C8: in every state reachable in web mode, while the grace timer is still
pending, or while the clock is short of 1500 ms past the start, `healthy` is
false and `/health` gets 503 with status "starting", whatever the child did;
and `healthy` being true implies that the timer has run and that at least
1500 ms have passed since the start. -/
theorem grace_period (cfg : Config) (pid : JsVal) (now : Int) (evs : List Event) :
    (((run (initWeb cfg pid now) evs).timerPending = true ∨
        (run (initWeb cfg pid now) evs).now < now + 1500) →
      (run (initWeb cfg pid now) evs).healthy = false ∧
      (requestHandler (run (initWeb cfg pid now) evs) "/health").statusCode = 503 ∧
      (requestHandler (run (initWeb cfg pid now) evs) "/health").status =
        some (.str "starting")) ∧
    ((run (initWeb cfg pid now) evs).healthy = true →
      (run (initWeb cfg pid now) evs).timerPending = false ∧
      now + 1500 ≤ (run (initWeb cfg pid now) evs).now) := by
  have hinv := run_graceInv evs (initWeb cfg pid now)
    (by intro h; exact absurd h (by simp [initWeb]))
  have hst : (run (initWeb cfg pid now) evs).startedAt = now := (run_frame evs _).2.2
  unfold gracePeriodMs at hinv
  rw [hst] at hinv
  refine ⟨?_, fun h => ⟨(hinv h).1, by have := (hinv h).2; omega⟩⟩
  intro h
  have hf : (run (initWeb cfg pid now) evs).healthy = false := by
    cases hh : (run (initWeb cfg pid now) evs).healthy with
    | false => rfl
    | true =>
      obtain ⟨a, b⟩ := hinv hh
      rcases h with h | h
      · rw [a] at h; exact absurd h (by decide)
      · omega
  refine ⟨hf, ?_, ?_⟩
  · rw [requestHandler_health]; simp [healthStatus, hf]
  · rw [requestHandler_health]; simp [healthStatus, hf, Response.status, jsonGet]

/-- C8 on two runs: 1499 ms in, the timer cannot run and `/health` gets 503;
once the flag is true, 1500 ms have passed. -/
theorem grace_period_witness :
    (requestHandler
        (run (initWeb ⟨"web", some 8080, "latest"⟩ (.num 41) 0)
          [.advance 1499, .timerFire, .request "/health"]) "/health").statusCode = 503 ∧
    (0 : Int) + 1500 ≤
      (run (initWeb ⟨"web", some 8080, "latest"⟩ (.num 41) 0)
        [.advance 1000, .timerFire, .advance 700, .timerFire]).now :=
  ⟨((grace_period ⟨"web", some 8080, "latest"⟩ (.num 41) 0
      [.advance 1499, .timerFire, .request "/health"]).1 (Or.inl (by decide))).2.1,
   ((grace_period ⟨"web", some 8080, "latest"⟩ (.num 41) 0
      [.advance 1000, .timerFire, .advance 700, .timerFire]).2 (by decide)).2⟩

/-! ## Shutdown -/

/-- A listener that is closing was asked to close: the effects of the SIGTERM
listener are in the trace, or the state was closing to begin with. -/
theorem closing_traced (evs : List Event) (s : WebState)
    (h : (run s evs).closing = true) :
    s.closing = true ∨ onSigterm <:+: trace s evs := by
  induction evs generalizing s with
  | nil => exact Or.inl h
  | cons e es ih =>
    rcases ih (step s e).1 h with h1 | h1
    · by_cases hc : s.closing = true
      · exact Or.inl hc
      · right
        have he : (step s e).2 = onSigterm := by
          revert h1
          unfold step
          split
          · intro h1; exact absurd h1 hc
          · cases e <;> simp only <;>
              first
              | (intro h1; exact absurd h1 hc)
              | (split <;> first | (intro _; rfl) | (intro h1; exact absurd h1 hc))
        rw [trace, he]
        exact ⟨[], trace (step s e).1 es, by simp⟩
    · right
      rw [trace]
      obtain ⟨a, b, hab⟩ := h1
      exact ⟨(step s e).2 ++ a, b, by simp [← hab]⟩

/-- C9, as stated, fails twice over.  A termination signal other than SIGTERM
(here SIGINT) finds no listener: the script sends nothing to the child and does
not ask the listener to close.  And after SIGTERM a child that exits with code 0
makes the supervisor exit with code 0 from the exit listener, while the close
callback of the HTTP listener has not run. -/
theorem exit_zero_before_close :
    (step (initWeb ⟨"web", some 8080, "latest"⟩ (.num 41) 0) (.signal "SIGINT")).2 = [] ∧
    trace (initWeb ⟨"web", some 8080, "latest"⟩ (.num 41) 0)
        [.signal "SIGTERM", .childExit (.num 0) .null] =
      [.consoleError "[adapter] SIGTERM received, shutting down",
       .childKill "SIGTERM", .serverClose,
       .consoleError "[adapter] MCP process exited code=0 signal=null",
       .processExit (.num 0)] ∧
    (run (initWeb ⟨"web", some 8080, "latest"⟩ (.num 41) 0)
        [.signal "SIGTERM", .childExit (.num 0) .null]).exited = some (.num 0) := by
  refine ⟨by decide, by decide, by decide⟩

/-- C9, amended: in every state reachable in web mode with the supervisor
running, on SIGTERM the listener first sends SIGTERM to the child and then asks
the HTTP listener to close, emits no process exit and leaves the supervisor
running; the close callback that follows exits with code 0; whenever a close
callback exits with code 0, the trace before it holds the effects of the
SIGTERM listener, the kill ahead of the close; and a signal with any other name
makes the script emit nothing. -/
theorem shutdown_order (cfg : Config) (pid : JsVal) (now : Int) (evs : List Event) :
    ((run (initWeb cfg pid now) evs).exited = none →
      (step (run (initWeb cfg pid now) evs) (.signal "SIGTERM")).2 =
        [.consoleError "[adapter] SIGTERM received, shutting down",
         .childKill "SIGTERM", .serverClose] ∧
      exitCodeOf (step (run (initWeb cfg pid now) evs) (.signal "SIGTERM")).2 = none ∧
      (step (run (initWeb cfg pid now) evs) (.signal "SIGTERM")).1.exited = none ∧
      (step (step (run (initWeb cfg pid now) evs) (.signal "SIGTERM")).1 .serverClosed).2 =
        [.processExit (.num 0)]) ∧
    (Effect.processExit (.num 0) ∈ (step (run (initWeb cfg pid now) evs) .serverClosed).2 →
      [Effect.consoleError "[adapter] SIGTERM received, shutting down",
       Effect.childKill "SIGTERM", Effect.serverClose] <:+: trace (initWeb cfg pid now) evs) ∧
    (∀ sig : String, sig ≠ "SIGTERM" →
      (step (run (initWeb cfg pid now) evs) (.signal sig)).2 = []) := by
  refine ⟨?_, ?_, ?_⟩
  · intro h
    simp [step, h, onSigterm, onServerClosed, exitCodeOf]
  · intro h
    have hc : (run (initWeb cfg pid now) evs).closing = true := by
      revert h
      unfold step
      split
      · simp
      · simp only
        split
        · intro _; assumption
        · simp
    rcases closing_traced evs _ hc with h1 | h1
    · exact absurd h1 (by simp [initWeb])
    · exact h1
  · intro sig hsig
    unfold step
    split
    · rfl
    · simp [hsig]

/-- C9 amended, on a run where a request precedes the signal and the close
callback. -/
theorem shutdown_order_witness :
    [Effect.consoleError "[adapter] SIGTERM received, shutting down",
     Effect.childKill "SIGTERM", Effect.serverClose] <:+:
      trace (initWeb ⟨"web", some 8080, "latest"⟩ (.num 41) 0)
        [.request "/health", .signal "SIGTERM"] ∧
    (step (step (run (initWeb ⟨"web", some 8080, "latest"⟩ (.num 41) 0) [.request "/health"])
        (.signal "SIGTERM")).1 .serverClosed).2 = [.processExit (.num 0)] ∧
    (step (run (initWeb ⟨"web", some 8080, "latest"⟩ (.num 41) 0) [.request "/health"])
        (.signal "SIGHUP")).2 = [] :=
  ⟨(shutdown_order ⟨"web", some 8080, "latest"⟩ (.num 41) 0
      [.request "/health", .signal "SIGTERM"]).2.1 (by decide),
   ((shutdown_order ⟨"web", some 8080, "latest"⟩ (.num 41) 0
      [.request "/health"]).1 (by decide)).2.2.2,
   (shutdown_order ⟨"web", some 8080, "latest"⟩ (.num 41) 0
      [.request "/health"]).2.2 "SIGHUP" (by decide)⟩

/-! ## After the exit of the child -/

/-- Once `process.exit` has run, no event does anything. -/
theorem run_exited (evs : List Event) (s : WebState) (h : s.exited.isSome = true) :
    run s evs = s ∧ trace s evs = [] := by
  induction evs with
  | nil => exact ⟨rfl, rfl⟩
  | cons e es ih =>
    have hs : step s e = (s, []) := by simp [step, h]
    simp [run, trace, hs, ih]

/-- The exit event of the child leaves a supervisor that has exited. -/
theorem step_childExit_exited (s : WebState) (code signal : JsVal) :
    (step s (.childExit code signal)).1.exited.isSome = true := by
  unfold step
  split
  · assumption
  · simp only [onChildExit]
    split <;> rfl

/-- After a run that holds an exit event of the child, the supervisor has exited. -/
theorem run_childExit_exited (evs : List Event) (s : WebState) (code signal : JsVal)
    (h : Event.childExit code signal ∈ evs) : (run s evs).exited.isSome = true := by
  induction evs generalizing s with
  | nil => simp at h
  | cons e es ih =>
    rcases List.mem_cons.mp h with h1 | h1
    · subst h1
      have hx := step_childExit_exited s code signal
      rw [run, (run_exited es _ hx).1]
      exact hx
    · exact ih _ h1

/-- C4, as stated, fails: after the exit of the child, with a numeric code past
the grace period or by a signal before it, the supervisor has itself exited in
the turn of the exit event, and a request for `/health` gets no response at
all, so no 503. -/
theorem no_response_after_child_exit :
    (run (initWeb ⟨"web", some 8080, "latest"⟩ (.num 41) 0)
        [.advance 1500, .timerFire, .childExit (.num 0) .null]).child.hasExited = true ∧
    (step (run (initWeb ⟨"web", some 8080, "latest"⟩ (.num 41) 0)
        [.advance 1500, .timerFire, .childExit (.num 0) .null]) (.request "/health")).2 = [] ∧
    (run (initWeb ⟨"web", some 8080, "latest"⟩ (.num 41) 0)
        [.childExit .null (.str "SIGKILL")]).child.hasExited = true ∧
    (step (run (initWeb ⟨"web", some 8080, "latest"⟩ (.num 41) 0)
        [.childExit .null (.str "SIGKILL")]) (.request "/health")).2 = [] ∧
    (run (initWeb ⟨"web", some 8080, "latest"⟩ (.num 41) 0)
        [.childExit .null (.str "SIGKILL")]).exited = some (.num 1) := by
  refine ⟨by decide, by decide, by decide, by decide, by decide⟩

/-- C4, amended: in web mode, after every run in which the child has exited
(with a numeric exit code or killed by a signal, before or after the grace
period), the supervisor has itself exited, and a request for `/health`, like
every later event, is not answered: it changes nothing and emits nothing. -/
theorem child_exit_ends_service (cfg : Config) (pid : JsVal) (now : Int)
    (evs : List Event) (code signal : JsVal)
    (h : Event.childExit code signal ∈ evs) :
    (run (initWeb cfg pid now) evs).exited.isSome = true ∧
    step (run (initWeb cfg pid now) evs) (.request "/health") =
      (run (initWeb cfg pid now) evs, []) ∧
    (∀ more : List Event, trace (run (initWeb cfg pid now) evs) more = []) := by
  have hx := run_childExit_exited evs (initWeb cfg pid now) code signal h
  refine ⟨hx, by simp [step, hx], fun more => (run_exited more _ hx).2⟩

/-- C4 amended, on a run where a healthy child is killed by SIGKILL. -/
theorem child_exit_ends_service_witness :
    step (run (initWeb ⟨"web", some 8080, "latest"⟩ (.num 41) 0)
        [.advance 1500, .timerFire, .childExit .null (.str "SIGKILL")]) (.request "/health") =
      (run (initWeb ⟨"web", some 8080, "latest"⟩ (.num 41) 0)
        [.advance 1500, .timerFire, .childExit .null (.str "SIGKILL")], []) :=
  (child_exit_ends_service ⟨"web", some 8080, "latest"⟩ (.num 41) 0
    [.advance 1500, .timerFire, .childExit .null (.str "SIGKILL")] .null (.str "SIGKILL")
    (by decide)).2.1

/-! ## Forwarding the output of the child -/

/-- Splitting at the first line feed. -/
theorem linesAux_append (pre : List Char) (cur rest : List Char) (h : '\n' ∉ pre) :
    linesAux cur (pre ++ '\n' :: rest) = (cur.reverse ++ pre) :: linesAux [] rest := by
  induction pre generalizing cur with
  | nil => simp [linesAux]
  | cons c t ih =>
    have hc : c ≠ '\n' := fun e => h (by simp [e])
    have ht : '\n' ∉ t := fun e => h (by simp [e])
    simp [linesAux, hc, ih (c :: cur) ht]

/-- In web mode each chunk becomes one write, the tag in front. -/
theorem forwardChunks_web (src : ChildStream) (chunks : List String) :
    forwardChunks "web" src chunks = chunks.map fun d => .stderrWrite (src.tag ++ d) := by
  induction chunks with
  | nil => rfl
  | cons d rest ih => simp [forwardChunks, onChildData, ih]

/-- C10, as stated, fails: one chunk from the standard output of the child that
carries the two lines `a` and `b` is written as `[mcp-out] a` followed by `b`;
the second line does not begin with the tag. -/
theorem second_line_untagged :
    forwardChunks "web" .stdout ["a\nb\n"] = [.stderrWrite "[mcp-out] a\nb\n"] ∧
    linesOf (stderrText (forwardChunks "web" .stdout ["a\nb\n"])) =
      ["[mcp-out] a".toList, "b".toList] ∧
    "b".toList ∈ linesOf (stderrText (forwardChunks "web" .stdout ["a\nb\n"])) ∧
    ¬ (ChildStream.stdout.tag.toList <+: "b".toList) := by
  refine ⟨by decide, by decide, by decide, by decide⟩

/-- C10, amended: in web mode every chunk received from the standard output
(resp. standard error) of the child is written to the diagnostic stream once,
in order, with `[mcp-out] ` (resp. `[mcp-err] `) in front of it; when every
chunk is exactly one line ended by a line feed, every line of the text written
begins with the tag of its stream. -/
theorem chunks_tagged (src : ChildStream) (chunks : List String) :
    forwardChunks "web" src chunks = chunks.map (fun d => .stderrWrite (src.tag ++ d)) ∧
    ((∀ d ∈ chunks, ∃ body : List Char, d.toList = body ++ ['\n'] ∧ '\n' ∉ body) →
      ∀ l ∈ linesOf (stderrText (forwardChunks "web" src chunks)), src.tag.toList <+: l) := by
  refine ⟨forwardChunks_web src chunks, ?_⟩
  have htag : '\n' ∉ src.tag.toList := by cases src <;> decide
  induction chunks with
  | nil => intro _ l hl; simp [forwardChunks, stderrText, linesOf, linesAux] at hl
  | cons d rest ih =>
    intro hall l hl
    obtain ⟨body, hb, hnl⟩ := hall d (by simp)
    have htxt : (stderrText (forwardChunks "web" src (d :: rest))).toList =
        (src.tag.toList ++ body) ++ '\n' :: (stderrText (forwardChunks "web" src rest)).toList := by
      simp only [forwardChunks, onChildData, if_true, List.singleton_append, stderrText]
      simp only [String.toList] at hb ⊢
      simp [String.data_append, hb]
    have hno : '\n' ∉ src.tag.toList ++ body := by
      simp only [List.mem_append, not_or]
      exact ⟨htag, hnl⟩
    unfold linesOf at hl
    rw [htxt, linesAux_append _ _ _ hno] at hl
    simp only [List.reverse_nil, List.nil_append, List.mem_cons] at hl
    rcases hl with hl | hl
    · rw [hl]; exact List.prefix_append _ _
    · exact ih (fun d hd => hall d (by simp [hd])) l hl

/-- C10 amended, on the two one-line chunks `a` and `b` from standard error:
the second line written is `[mcp-err] b`. -/
theorem chunks_tagged_witness :
    ChildStream.stderr.tag.toList <+: "[mcp-err] b".toList :=
  (chunks_tagged .stderr ["a\n", "b\n"]).2 (by
    intro d hd
    simp only [List.mem_cons, List.mem_singleton, List.not_mem_nil, or_false] at hd
    rcases hd with rfl | rfl
    · exact ⟨['a'], by decide, by decide⟩
    · exact ⟨['b'], by decide, by decide⟩) "[mcp-err] b".toList (by decide)

end Adapter
